import Mathlib

/-!
Verification of the Worklog backend's authorization and status-transition
rules, shallowly embedded from `core/models.py`, `core/serializers.py`,
`core/views.py` and `core/permissions.py`.

Conventions of the embedding:
* A Django `User` is a record; entities reference users by primary key
  (`Nat`), matching Django model equality (two model instances compare
  equal iff their primary keys do).
* A DRF request handler becomes a pure function from the acting user, the
  stored instance (or store) and the validated input to an `HttpOutcome`:
  `ok` is an HTTP 200/201 carrying the row as stored after the request,
  `forbidden` an HTTP 403 (`PermissionDenied` / `permission_denied`), and
  `badRequest` an HTTP 400 (`ValidationError` or an explicit 400 response).
* DRF `read_only_fields` are honoured: a read-only field of the request
  body never enters `validated_data`, so the embedded `validated_data`
  records (`*Patch` structures) simply do not have that field, and the
  raw body value is passed separately where a view inspects it.
* `get_queryset` becomes a function from the actor and the full table
  (a `List`) to the visible rows.  The source's `order_by` clauses only
  reorder rows and never change membership; the embedding keeps store
  order.
-/

namespace Worklog

/-- A Django auth user (`django.contrib.auth`), restricted to the fields
the Worklog code reads: primary key, username, email, the admin flag
`is_staff`, and `is_active`. -/
structure User where
  id : Nat
  username : String
  email : String
  is_staff : Bool
  is_active : Bool
deriving DecidableEq, Repr

/-- `core/models.py` `Project`: name (unique) and description; no user
reference of any kind. -/
structure Project where
  name : String
  description : Option String
deriving DecidableEq, Repr

/-- Task status choices from `Task.STATUS_CHOICES`. -/
inductive TaskStatus where
  | pending | in_progress | completed | on_hold
deriving DecidableEq, Repr

/-- `core/models.py` `Task`: project, optional assignee / creator /
reporting manager (user pks), optional parent task, status, progress. -/
structure Task where
  project : Nat
  name : String
  description : Option String
  assigned_to : Option Nat
  created_by : Option Nat
  due_date : Option Nat
  status : TaskStatus
  progress : Int
  parent_task : Option Nat
  reporting_manager : Option Nat
deriving DecidableEq, Repr

/-- TimesheetEntry status choices from `TimesheetEntry.STATUS_CHOICES`. -/
inductive TsStatus where
  | draft | submitted | approved | rejected
deriving DecidableEq, Repr

/-- `core/models.py` `TimesheetEntry`: owner (user pk), task, date, hours,
description, status (default draft).  Dates are day numbers; hours is the
decimal field scaled to an integer of hundredths. -/
structure TimesheetEntry where
  user : Nat
  task : Nat
  date : Nat
  hours : Int
  description : Option String
  status : TsStatus
deriving DecidableEq, Repr

/-- LeaveRequest status choices from `LeaveRequest.STATUS_CHOICES`. -/
inductive LrStatus where
  | pending | approved | rejected
deriving DecidableEq, Repr

/-- `core/models.py` `LeaveRequest`: owner (user pk), leave type, date
range or hourly time range, reason, status (default pending), admin
comments, approver (user pk, nullable). -/
structure LeaveRequest where
  user : Nat
  leave_type : String
  start_date : Nat
  end_date : Option Nat
  reason : String
  status : LrStatus
  is_hourly : Bool
  start_time : Option Nat
  end_time : Option Nat
  admin_comments : Option String
  approved_by : Option Nat
deriving DecidableEq, Repr

/-- `core/models.py` `TaskTimeEntry`: owner (user pk), task, start/end
timestamps (minutes since epoch), description. -/
structure TaskTimeEntry where
  user : Nat
  task : Nat
  start_time : Int
  end_time : Int
  description : Option String
deriving DecidableEq, Repr

/-- `core/models.py` `Notice`: title, content, creator (user pk,
nullable). -/
structure Notice where
  title : String
  content : String
  created_by : Option Nat
deriving DecidableEq, Repr

/-- Outcome of a request handler: `ok` is the 200/201 response carrying
the row as stored after the request; `forbidden` is a 403
(`PermissionDenied`); `badRequest` a 400 (`ValidationError` or an explicit
`HTTP_400_BAD_REQUEST` response). -/
inductive HttpOutcome (α : Type) where
  | ok (value : α)
  | forbidden (detail : String)
  | badRequest (detail : String)
deriving DecidableEq, Repr

/-! ## List operations (`get_queryset`) -/

/-- `ProjectViewSet` (views.py 42-50): no `get_queryset` override, so
every authenticated actor, admin or not, lists all projects. -/
def project_list (_actor : User) (db : List Project) : List Project :=
  db

/-- `TaskViewSet.get_queryset` (views.py 57-63): staff see the whole
table; a regular user sees tasks assigned to them or created by them. -/
def task_list (actor : User) (db : List Task) : List Task :=
  if actor.is_staff then db
  else db.filter fun t =>
    t.assigned_to = some actor.id ∨ t.created_by = some actor.id

/-- `TimesheetEntryViewSet.get_queryset` (views.py 109-124): staff see
the whole table, optionally narrowed by `user` / `start_date` /
`end_date` query parameters; a regular user sees only their own rows. -/
def timesheet_get_queryset (actor : User) (user_id start_date end_date : Option Nat)
    (db : List TimesheetEntry) : List TimesheetEntry :=
  if actor.is_staff then
    let q := match user_id with
      | some u => db.filter fun e => e.user = u
      | none => db
    let q := match start_date with
      | some d => q.filter fun e => d ≤ e.date
      | none => q
    match end_date with
      | some d => q.filter fun e => e.date ≤ d
      | none => q
  else db.filter fun e => e.user = actor.id

/-- `LeaveRequestViewSet.get_queryset` (views.py 178-191): staff see all
rows, optionally narrowed to one user; a regular user sees only their own
requests.  The source orders by `-created_at`, which does not affect
membership. -/
def leave_get_queryset (actor : User) (user_id : Option Nat)
    (db : List LeaveRequest) : List LeaveRequest :=
  if actor.is_staff then
    match user_id with
    | some u => db.filter fun r => r.user = u
    | none => db
  else db.filter fun r => r.user = actor.id

/-- `TaskTimeEntryListCreateView.get_queryset` (views.py 255-263): a
regular user's rows are filtered to their own before any query-parameter
filtering; staff see all rows.  Ordering by `-start_time` omitted. -/
def taskTime_get_queryset (actor : User) (db : List TaskTimeEntry) : List TaskTimeEntry :=
  if actor.is_staff then db
  else db.filter fun e => e.user = actor.id

/-- `NoticeViewSet` (views.py 280-292): no `get_queryset` override, so
every authenticated actor, admin or not, lists all notices. -/
def notice_list (_actor : User) (db : List Notice) : List Notice :=
  db

/-! ## TimesheetEntry write operations -/

/-- `validated_data` of a `TimesheetEntrySerializer` request
(serializers.py 67-89): `fields = '__all__'` with
`read_only_fields = ['user']`, so everything but `user` is writable —
including `status`.  `none` means the field is absent from the (partial)
payload. -/
structure TimesheetPatch where
  task : Option Nat := none
  date : Option Nat := none
  hours : Option Int := none
  description : Option (Option String) := none
  status : Option TsStatus := none
deriving DecidableEq, Repr

/-- `ModelSerializer.update` field assignment: each key present in
`validated_data` overwrites the instance attribute. -/
def TimesheetPatch.apply (d : TimesheetPatch) (e : TimesheetEntry) : TimesheetEntry :=
  { e with
    task := d.task.getD e.task
    date := d.date.getD e.date
    hours := d.hours.getD e.hours
    description := d.description.getD e.description
    status := d.status.getD e.status }

/-- `TimesheetEntryViewSet.perform_create` (views.py 126-129) composed
with the serializer: `user` is read-only, so the body's `user` value
(`body_user`) never reaches `validated_data` and the guard
`serializer.validated_data.get('user')` always sees nothing; the row is
then saved with `user=self.request.user`. -/
def timesheet_perform_create (actor : User) (body_user : Option Nat)
    (task : Nat) (date : Nat) (hours : Int) (description : Option String)
    (status : Option TsStatus) : HttpOutcome TimesheetEntry :=
  let validated_user : Option Nat := none
  -- the `body_user` value is dropped by the serializer before validation
  let _ := body_user
  if actor.is_staff = false ∧ (validated_user.isSome ∧ validated_user ≠ some actor.id) then
    .forbidden "You can only create timesheet entries for yourself."
  else
    .ok { user := actor.id, task, date, hours, description,
          status := status.getD .draft }

/-- The DRF update flow for `TimesheetEntryViewSet`
(views.py 131-142 together with serializers.py 81-89), as executed by
`UpdateModelMixin.update`:

1. non-draft instance and non-staff actor: `perform_update` builds a 403
   `Response` and `return`s it — but `UpdateModelMixin.update` discards
   `perform_update`'s return value and replies
   `Response(serializer.data)`, i.e. HTTP 200 with the unchanged row;
   `serializer.save()` is never called, so the store is unchanged;
2. non-owner and non-staff actor: `self.permission_denied` raises → 403;
3. otherwise `serializer.save()` runs `TimesheetEntrySerializer.update`,
   whose own non-draft/non-staff guard (a `ValidationError`, → 400) can
   no longer fire after branch 1, and the patch is applied. -/
def timesheet_update_endpoint (actor : User) (inst : TimesheetEntry)
    (d : TimesheetPatch) : HttpOutcome TimesheetEntry :=
  if inst.status ≠ .draft ∧ actor.is_staff = false then
    .ok inst
  else if inst.user ≠ actor.id ∧ actor.is_staff = false then
    .forbidden "You do not have permission to update this timesheet entry."
  else if inst.status ≠ .draft ∧ actor.is_staff = false then
    .badRequest "Timesheet entry cannot be edited once it's no longer in 'draft' status."
  else
    .ok (d.apply inst)

/-- `TimesheetEntryViewSet.submit` (views.py 150-159): only the entry's
owner may submit (even an admin gets 403 on someone else's entry); a
draft entry becomes submitted, any other status yields 400 with the
entry unchanged. -/
def timesheet_submit (actor : User) (entry : TimesheetEntry) :
    HttpOutcome TimesheetEntry :=
  if entry.user ≠ actor.id then
    .forbidden "You do not have permission to submit this entry."
  else if entry.status = .draft then
    .ok { entry with status := .submitted }
  else
    .badRequest "Timesheet entry is not in draft status."

/-- `TimesheetEntryViewSet.update_status` (views.py 161-169):
`permission_classes=[IsAdminUser]` rejects non-staff actors before the
body runs; the body reads the raw `status` string from `request.data`
and, when it is `approved` or `rejected`, assigns it with NO check of the
entry's current status; any other value yields 400. -/
def timesheet_update_status (actor : User) (entry : TimesheetEntry)
    (new_status : Option String) : HttpOutcome TimesheetEntry :=
  if actor.is_staff = false then
    .forbidden "You do not have permission to perform this action."
  else if new_status = some "approved" then
    .ok { entry with status := .approved }
  else if new_status = some "rejected" then
    .ok { entry with status := .rejected }
  else
    .badRequest "Invalid status."

/-! ## LeaveRequest write operations -/

/-- `validated_data` of a `LeaveRequestSerializer` request
(serializers.py 92-101): `fields = '__all__'` with
`read_only_fields = ['user', 'created_at', 'updated_at']`, so `status`,
`admin_comments` and `approved_by` are all writable.  `none` means the
field is absent from the (partial) payload. -/
structure LeavePatch where
  leave_type : Option String := none
  start_date : Option Nat := none
  end_date : Option (Option Nat) := none
  reason : Option String := none
  status : Option LrStatus := none
  is_hourly : Option Bool := none
  start_time : Option (Option Nat) := none
  end_time : Option (Option Nat) := none
  admin_comments : Option String := none
  approved_by : Option (Option Nat) := none
deriving DecidableEq, Repr

/-- `LeaveRequestSerializer.update` (serializers.py 105-136):

1. staff actor changing `status` to approved/rejected records themself
   as `approved_by`; reverting a non-pending request to pending clears
   `approved_by`;
2. staff may set `admin_comments`; a non-staff payload containing
   `admin_comments` raises a `ValidationError`;
3. every other present field except `status`, `admin_comments`,
   `approved_by` is assigned by the loop;
4. finally `status` is assigned from the payload when present. -/
def leave_serializer_update (request_user : User) (inst : LeaveRequest)
    (vd : LeavePatch) : Except String LeaveRequest :=
  let inst1 :=
    if request_user.is_staff then
      match vd.status with
      | some s =>
        if s = .approved ∨ s = .rejected then
          { inst with approved_by := some request_user.id }
        else if s = .pending ∧ inst.status ≠ .pending then
          { inst with approved_by := none }
        else inst
      | none => inst
    else inst
  if request_user.is_staff = false ∧ vd.admin_comments.isSome then
    .error "You do not have permission to set admin comments."
  else
    let inst2 :=
      if request_user.is_staff then
        match vd.admin_comments with
        | some c => { inst1 with admin_comments := some c }
        | none => inst1
      else inst1
    let inst3 :=
      { inst2 with
        leave_type := vd.leave_type.getD inst2.leave_type
        start_date := vd.start_date.getD inst2.start_date
        end_date := vd.end_date.getD inst2.end_date
        reason := vd.reason.getD inst2.reason
        is_hourly := vd.is_hourly.getD inst2.is_hourly
        start_time := vd.start_time.getD inst2.start_time
        end_time := vd.end_time.getD inst2.end_time }
    .ok { inst3 with status := vd.status.getD inst3.status }

/-- `LeaveRequestViewSet.perform_update` (views.py 199-225):

* staff: when the payload sets `status` to approved/rejected,
  `serializer.save(approved_by=request_user)` (the kwarg is merged into
  `validated_data`); otherwise a plain `serializer.save()`;
* non-staff: denied unless they own the request; then denied if the
  payload contains `status` while the request is not pending or with
  value approved/rejected; then denied if the payload contains
  `admin_comments` or `approved_by`; otherwise `serializer.save()`. -/
def leave_perform_update (request_user : User) (inst : LeaveRequest)
    (vd : LeavePatch) : HttpOutcome LeaveRequest :=
  let run (p : LeavePatch) : HttpOutcome LeaveRequest :=
    match leave_serializer_update request_user inst p with
    | .ok r => .ok r
    | .error m => .badRequest m
  if request_user.is_staff then
    if vd.status = some .approved ∨ vd.status = some .rejected then
      run { vd with approved_by := some (some request_user.id) }
    else
      run vd
  else
    if inst.user ≠ request_user.id then
      .forbidden "You do not have permission to update this leave request."
    else if vd.status.isSome ∧
        (inst.status ≠ .pending ∨ vd.status = some .approved ∨ vd.status = some .rejected) then
      .forbidden "You cannot change the status of an already processed leave request or set it to approved/rejected."
    else if vd.admin_comments.isSome ∨ vd.approved_by.isSome then
      .forbidden "You cannot set admin comments or approved by user."
    else
      run vd

/-- `LeaveRequestViewSet.perform_create` (views.py 193-197) composed with
the serializer: `user` is read-only, so the body's `user` value never
reaches `validated_data`, the guard always sees nothing, and the row is
saved with `user=self.request.user` (status defaults to pending when
absent). -/
def leave_perform_create (actor : User) (body_user : Option Nat)
    (leave_type : String) (start_date : Nat) (end_date : Option Nat)
    (reason : String) (status : Option LrStatus) (is_hourly : Bool)
    (start_time end_time : Option Nat) : HttpOutcome LeaveRequest :=
  let validated_user : Option Nat := none
  -- the `body_user` value is dropped by the serializer before validation
  let _ := body_user
  if actor.is_staff = false ∧ (validated_user.isSome ∧ validated_user ≠ some actor.id) then
    .forbidden "You can only create leave requests for yourself."
  else
    .ok { user := actor.id, leave_type, start_date, end_date, reason,
          status := status.getD .pending, is_hourly, start_time, end_time,
          admin_comments := none, approved_by := none }

/-! ## TaskTimeEntry write operations -/

/-- `TaskTimeEntrySerializer.validate` (serializers.py 171-174): rejects
`start_time >= end_time`. -/
def taskTime_validate (start_time end_time : Int) : Except String Unit :=
  if start_time ≥ end_time then
    .error "End time must be after start time."
  else
    .ok ()

/-- `TaskTimeEntryListCreateView.perform_create` (views.py 265-267)
composed with the serializer: validation runs first; `user` is read-only
(so the body's `user` value is dropped), and the entry is saved with
`user=self.request.user`. -/
def taskTime_create (actor : User) (body_user : Option Nat) (task : Nat)
    (start_time end_time : Int) (description : Option String) :
    HttpOutcome TaskTimeEntry :=
  -- the `body_user` value is dropped by the serializer before validation
  let _ := body_user
  match taskTime_validate start_time end_time with
  | .error m => .badRequest m
  | .ok _ => .ok { user := actor.id, task, start_time, end_time, description }

/-! ## User registration -/

/-- `UserViewSet.get_permissions` (views.py 31-34): the `create` action
gets `AllowAny` (no authentication needed); every other action requires
an authenticated actor. -/
def user_viewset_allows (action : String) (authenticated : Bool) : Bool :=
  if action = "create" then true else authenticated

/-- Request body accepted by `UserRegistrationSerializer`
(serializers.py 15-32): username, email, password, and an optional
write-only `is_staff` flag defaulting to false. -/
structure RegistrationData where
  username : String
  email : String
  password : String
  is_staff : Option Bool := none
deriving DecidableEq, Repr

/-- `UserRegistrationSerializer.create` (serializers.py 23-32): pops
`is_staff` (default false) from the validated data and calls
`User.objects.create_user(..., is_staff=is_staff, is_active=True)`. -/
def userRegistration_create (d : RegistrationData) (new_id : Nat) : User :=
  { id := new_id, username := d.username, email := d.email,
    is_staff := d.is_staff.getD false, is_active := true }

/-! ## Ownership predicates (glossary: the owner of a row is the user
referenced by its assignment/creation field) -/

/-- A task is owned by a user when they are its assignee or creator. -/
def Task.ownedBy (t : Task) (uid : Nat) : Prop :=
  t.assigned_to = some uid ∨ t.created_by = some uid

/-- A timesheet entry is owned by its `user`. -/
def TimesheetEntry.ownedBy (e : TimesheetEntry) (uid : Nat) : Prop :=
  e.user = uid

/-- A task time entry is owned by its `user`. -/
def TaskTimeEntry.ownedBy (e : TaskTimeEntry) (uid : Nat) : Prop :=
  e.user = uid

/-- A leave request is owned by its `user`. -/
def LeaveRequest.ownedBy (r : LeaveRequest) (uid : Nat) : Prop :=
  r.user = uid

/-- A notice's only user reference is its creator. -/
def Notice.ownedBy (n : Notice) (uid : Nat) : Prop :=
  n.created_by = some uid

/-! ## Concrete fixtures used in counterexamples and witnesses -/

/-- A concrete admin user. -/
def alice : User :=
  { id := 1, username := "alice", email := "alice@example.com",
    is_staff := true, is_active := true }

/-- A concrete regular (non-admin) user. -/
def bob : User :=
  { id := 2, username := "bob", email := "bob@example.com",
    is_staff := false, is_active := true }

/-- A notice created by the admin `alice`. -/
def adminNotice : Notice :=
  { title := "Maintenance", content := "Server down tonight", created_by := some 1 }

/-- A draft timesheet entry owned by `bob`. -/
def draftEntry : TimesheetEntry :=
  { user := 2, task := 1, date := 100, hours := 800, description := none,
    status := .draft }

/-- A submitted timesheet entry owned by `bob`. -/
def submittedEntry : TimesheetEntry :=
  { user := 2, task := 1, date := 100, hours := 800, description := none,
    status := .submitted }

/-- An approved leave request of `bob`, approved by `alice`. -/
def approvedLeave : LeaveRequest :=
  { user := 2, leave_type := "sick", start_date := 10, end_date := some 12,
    reason := "flu", status := .approved, is_hourly := false,
    start_time := none, end_time := none, admin_comments := none,
    approved_by := some 1 }

/-! ## C1: row-level filtering of list operations -/

/-- C1 (counterexample): the claim says every entity type's list is
filtered to owned rows for non-admin actors, but `NoticeViewSet` has no
`get_queryset` override: the non-admin `bob` lists a notice created by
`alice` that he does not own in any sense (nor is a `Project` owned by
anyone, `project_list` being equally unfiltered). -/
theorem C1_counterexample :
    bob.is_staff = false ∧
    notice_list bob [adminNotice] = [adminNotice] ∧
    ¬ Notice.ownedBy adminNotice bob.id := by
  refine ⟨rfl, rfl, ?_⟩
  simp [Notice.ownedBy, adminNotice, bob]

/-- C1 (amended): for Task, TimesheetEntry, TaskTimeEntry and
LeaveRequest the list operation returns only rows the non-admin actor
owns (as assignee, creator, or user); the Project and Notice lists are
unfiltered and return every row to any authenticated actor. -/
theorem C1_list_ownership (actor : User) (h : actor.is_staff = false)
    (uidp sdp edp uidq : Option Nat)
    (tasks : List Task) (tsdb : List TimesheetEntry)
    (ttdb : List TaskTimeEntry) (lrdb : List LeaveRequest)
    (pdb : List Project) (ndb : List Notice) :
    (∀ t ∈ task_list actor tasks, Task.ownedBy t actor.id) ∧
    (∀ e ∈ timesheet_get_queryset actor uidp sdp edp tsdb, TimesheetEntry.ownedBy e actor.id) ∧
    (∀ e ∈ taskTime_get_queryset actor ttdb, TaskTimeEntry.ownedBy e actor.id) ∧
    (∀ r ∈ leave_get_queryset actor uidq lrdb, LeaveRequest.ownedBy r actor.id) ∧
    project_list actor pdb = pdb ∧
    notice_list actor ndb = ndb := by
  refine ⟨?_, ?_, ?_, ?_, rfl, rfl⟩
  · intro t ht
    simp [task_list, h, List.mem_filter] at ht
    exact ht.2
  · intro e he
    simp [timesheet_get_queryset, h, List.mem_filter] at he
    exact he.2
  · intro e he
    simp [taskTime_get_queryset, h, List.mem_filter] at he
    exact he.2
  · intro r hr
    simp [leave_get_queryset, h, List.mem_filter] at hr
    exact hr.2

/-- C1 (witness): the amended theorem applied to the non-admin `bob` and
one-row tables. -/
theorem C1_list_ownership_witness :
    (∀ e ∈ timesheet_get_queryset bob none none none [draftEntry],
      TimesheetEntry.ownedBy e bob.id) ∧
    notice_list bob [adminNotice] = [adminNotice] := by
  have h := C1_list_ownership bob rfl none none none none
    [] [draftEntry] [] [] [] [adminNotice]
  exact ⟨h.2.1, h.2.2.2.2.2⟩

/-! ## C2: timesheet status transitions to approved/rejected -/

/-- C2 (counterexample): the claim says approved/rejected is reached only
via `update_status` and only from `submitted`.  But `update_status`
(views.py 161-169) never reads the entry's current status: the admin
`alice` approves `bob`'s DRAFT entry directly; and the generic update
endpoint lets the owner `bob` set his own draft entry's status straight
to approved, since `status` is a writable serializer field. -/
theorem C2_counterexample :
    draftEntry.status = TsStatus.draft ∧
    timesheet_update_status alice draftEntry (some "approved") =
      .ok { draftEntry with status := .approved } ∧
    timesheet_update_endpoint bob draftEntry { status := some .approved } =
      .ok { draftEntry with status := .approved } := by
  refine ⟨rfl, ?_, ?_⟩ <;> decide

/-- C2 (amended): `update_status` is admin-only and sets the status to
approved or rejected regardless of the entry's current status (including
draft), rejecting non-admins with 403 and any other requested value with
400; moreover the generic update operation can also move a draft entry
directly to approved when performed by its owner (or an admin). -/
theorem C2_status_transitions (actor : User) (e : TimesheetEntry) (s : Option String) :
    (actor.is_staff = false →
      timesheet_update_status actor e s =
        .forbidden "You do not have permission to perform this action.") ∧
    (actor.is_staff = true →
      timesheet_update_status actor e (some "approved") = .ok { e with status := .approved } ∧
      timesheet_update_status actor e (some "rejected") = .ok { e with status := .rejected } ∧
      (s ≠ some "approved" → s ≠ some "rejected" →
        timesheet_update_status actor e s = .badRequest "Invalid status.")) ∧
    (e.user = actor.id → e.status = .draft →
      timesheet_update_endpoint actor e { status := some .approved } =
        .ok { e with status := .approved }) := by
  refine ⟨?_, ?_, ?_⟩
  · intro h
    simp [timesheet_update_status, h]
  · intro h
    refine ⟨by simp [timesheet_update_status, h], by simp [timesheet_update_status, h], ?_⟩
    intro h1 h2
    simp [timesheet_update_status, h, h1, h2]
  · intro hown hdraft
    cases hstaff : actor.is_staff <;>
      simp [timesheet_update_endpoint, hdraft, hown, hstaff, TimesheetPatch.apply]

/-- C2 (witness): the amended theorem applied to the admin `alice` and
`bob`'s draft entry, with the hypotheses discharged concretely. -/
theorem C2_status_transitions_witness :
    timesheet_update_status alice draftEntry (some "rejected") =
      .ok { draftEntry with status := .rejected } ∧
    timesheet_update_endpoint bob draftEntry { status := some .approved } =
      .ok { draftEntry with status := .approved } :=
  ⟨((C2_status_transitions alice draftEntry (some "rejected")).2.1 rfl).2.1,
   (C2_status_transitions bob draftEntry none).2.2 rfl rfl⟩

/-! ## C3: editing a non-draft timesheet entry -/

/-- C3 (code bug): the claim — and the code's own intent — is that a
non-admin updating a non-draft entry gets an error.  The guard in
`TimesheetEntryViewSet.perform_update` (views.py 134-138) builds a 403
`Response` but `return`s it instead of raising: DRF's
`UpdateModelMixin.update` discards `perform_update`'s return value and
replies 200.  So the owner `bob`'s edit of his submitted entry is
silently swallowed (no error; the entry is unchanged because
`serializer.save()` is skipped), while the admin `alice`'s edit of the
same entry succeeds and changes it. -/
theorem C3_nondraft_update_divergence :
    timesheet_update_endpoint bob submittedEntry { hours := some 900 } =
      .ok submittedEntry ∧
    timesheet_update_endpoint alice submittedEntry { hours := some 900 } =
      .ok { submittedEntry with hours := 900 } := by
  refine ⟨?_, ?_⟩ <;> decide

/-! ## C10: the submit action -/

/-- C10: `submit` succeeds, moving the entry from draft to submitted, iff
the actor is the entry's owner and the status is draft; any non-owner —
admins included — gets a 403, and the owner of a non-draft entry gets a
400 with the entry unchanged. -/
theorem C10_submit_spec (actor : User) (e : TimesheetEntry) :
    (e.user = actor.id → e.status = .draft →
      timesheet_submit actor e = .ok { e with status := .submitted }) ∧
    (e.user ≠ actor.id →
      timesheet_submit actor e =
        .forbidden "You do not have permission to submit this entry.") ∧
    (e.user = actor.id → e.status ≠ .draft →
      timesheet_submit actor e =
        .badRequest "Timesheet entry is not in draft status.") ∧
    ((∃ r, timesheet_submit actor e = .ok r) ↔
      e.user = actor.id ∧ e.status = .draft) := by
  refine ⟨?_, ?_, ?_, ?_⟩
  · intro hown hdraft
    simp [timesheet_submit, hown, hdraft]
  · intro hnot
    simp [timesheet_submit, hnot]
  · intro hown hnd
    simp [timesheet_submit, hown, hnd]
  · constructor
    · rintro ⟨r, hr⟩
      by_cases hown : e.user = actor.id
      · by_cases hdraft : e.status = .draft
        · exact ⟨hown, hdraft⟩
        · simp [timesheet_submit, hown, hdraft] at hr
      · simp [timesheet_submit, hown] at hr
    · rintro ⟨hown, hdraft⟩
      refine ⟨{ e with status := .submitted }, ?_⟩
      simp [timesheet_submit, hown, hdraft]

/-- C10 (witness): the characterization applied to `bob` submitting his
own draft entry, and to the admin `alice` being refused on it. -/
theorem C10_submit_spec_witness :
    timesheet_submit bob draftEntry = .ok { draftEntry with status := .submitted } ∧
    timesheet_submit alice draftEntry =
      .forbidden "You do not have permission to submit this entry." :=
  ⟨(C10_submit_spec bob draftEntry).1 rfl rfl,
   (C10_submit_spec alice draftEntry).2.1 (by decide)⟩

/-! ## C4: only admins move a leave request to approved/rejected -/

/-- C4: an update whose payload sets a leave request's status to approved
or rejected succeeds exactly when the actor is an admin, and every
successful such update records that admin as `approved_by`. -/
theorem C4_leave_approve_admin_only (actor : User) (inst : LeaveRequest)
    (vd : LeavePatch)
    (hv : vd.status = some .approved ∨ vd.status = some .rejected) :
    ((∃ r, leave_perform_update actor inst vd = .ok r) ↔ actor.is_staff = true) ∧
    (∀ r, leave_perform_update actor inst vd = .ok r →
      r.approved_by = some actor.id) := by
  cases hstaff : actor.is_staff with
  | false =>
    have hres : ∃ m, leave_perform_update actor inst vd = .forbidden m := by
      by_cases hown : inst.user = actor.id
      · rcases hv with h | h <;>
          exact ⟨"You cannot change the status of an already processed leave request or set it to approved/rejected.",
                 by simp [leave_perform_update, hstaff, hown, h]⟩
      · exact ⟨"You do not have permission to update this leave request.",
               by simp [leave_perform_update, hstaff, hown]⟩
    rcases hres with ⟨m, hm⟩
    simp [hm]
  | true =>
    rcases hv with h | h <;> cases hc : vd.admin_comments <;>
      simp [leave_perform_update, leave_serializer_update, hstaff, h, hc]

/-- C4 (witness): the admin `alice` approves `bob`'s (pending-turned)
request and is recorded as approver; concretely instantiated from the
theorem. -/
theorem C4_leave_approve_admin_only_witness :
    ((∃ r, leave_perform_update alice approvedLeave { status := some .approved } = .ok r) ↔
      alice.is_staff = true) ∧
    (∀ r, leave_perform_update alice approvedLeave { status := some .approved } = .ok r →
      r.approved_by = some alice.id) :=
  C4_leave_approve_admin_only alice approvedLeave { status := some .approved }
    (Or.inl rfl)

/-! ## C6: owner edits of a non-pending leave request -/

/-- C6 (counterexample): the claim says a non-admin owner cannot edit
content fields of a non-pending request, but the guard in
`LeaveRequestViewSet.perform_update` only fires when the payload
contains `status` (or `admin_comments`/`approved_by`): the owner `bob`
edits the `reason` of his APPROVED request and the update succeeds and
changes it. -/
theorem C6_counterexample :
    bob.is_staff = false ∧
    approvedLeave.user = bob.id ∧
    approvedLeave.status = LrStatus.approved ∧
    leave_perform_update bob approvedLeave { reason := some "changed my mind" } =
      .ok { approvedLeave with reason := "changed my mind" } := by
  refine ⟨rfl, rfl, rfl, ?_⟩
  decide

/-- C6 (amended): a non-admin owner's update of a LeaveRequest receives
a permission error exactly when the payload includes the `status` field
while the request is not pending or with value approved/rejected, or
includes `admin_comments` or `approved_by`; in every other case the
update succeeds and applies the payload — content fields regardless of
the request's current status — so content edits of non-pending requests
go through. -/
theorem C6_owner_content_edit (actor : User) (inst : LeaveRequest)
    (vd : LeavePatch)
    (hstaff : actor.is_staff = false) (hown : inst.user = actor.id) :
    ((∃ m, leave_perform_update actor inst vd = .forbidden m) ↔
      (vd.status.isSome = true ∧
        (inst.status ≠ .pending ∨ vd.status = some .approved ∨ vd.status = some .rejected)) ∨
      vd.admin_comments.isSome = true ∨ vd.approved_by.isSome = true) ∧
    (¬ ((vd.status.isSome = true ∧
          (inst.status ≠ .pending ∨ vd.status = some .approved ∨ vd.status = some .rejected)) ∨
        vd.admin_comments.isSome = true ∨ vd.approved_by.isSome = true) →
      leave_perform_update actor inst vd =
        .ok { inst with
          leave_type := vd.leave_type.getD inst.leave_type
          start_date := vd.start_date.getD inst.start_date
          end_date := vd.end_date.getD inst.end_date
          reason := vd.reason.getD inst.reason
          is_hourly := vd.is_hourly.getD inst.is_hourly
          start_time := vd.start_time.getD inst.start_time
          end_time := vd.end_time.getD inst.end_time
          status := vd.status.getD inst.status }) := by
  by_cases h1 : vd.status.isSome = true ∧
      (inst.status ≠ .pending ∨ vd.status = some .approved ∨ vd.status = some .rejected)
  · constructor
    · simp [leave_perform_update, hstaff, hown, h1.1, h1.2]
    · intro hG
      exact absurd (Or.inl h1) hG
  · by_cases h2 : vd.admin_comments.isSome = true ∨ vd.approved_by.isSome = true
    · constructor
      · rcases h2 with hc | ha
        · simp [leave_perform_update, hstaff, hown, h1, hc]
        · simp [leave_perform_update, hstaff, hown, h1, ha]
      · intro hG
        exact absurd (Or.inr h2) hG
    · push_neg at h2
      have hc : vd.admin_comments.isSome = false := by simpa using h2.1
      have ha : vd.approved_by.isSome = false := by simpa using h2.2
      constructor
      · simp [leave_perform_update, leave_serializer_update, hstaff, hown, h1, hc, ha]
      · intro _
        simp [leave_perform_update, leave_serializer_update, hstaff, hown, h1, hc, ha]

/-- C6 (witness): the amended theorem at `bob` and his approved request:
the content edit goes through and changes the reason, while a payload
touching `status` is refused with a permission error. -/
theorem C6_owner_content_edit_witness :
    leave_perform_update bob approvedLeave { reason := some "changed my mind" } =
      .ok { approvedLeave with reason := "changed my mind" } ∧
    (∃ m, leave_perform_update bob approvedLeave { status := some .pending } =
      .forbidden m) := by
  constructor
  · have h := (C6_owner_content_edit bob approvedLeave
      { reason := some "changed my mind" } rfl rfl).2 (by decide)
    simpa [approvedLeave] using h
  · exact (C6_owner_content_edit bob approvedLeave { status := some .pending }
      rfl rfl).1.mpr (by decide)

/-! ## C7: reverting to pending clears the approver -/

/-- C7: an admin update that moves an approved or rejected leave request
back to pending succeeds and clears `approved_by` (serializers.py
117-118). -/
theorem C7_revert_clears_approver (actor : User) (inst : LeaveRequest)
    (vd : LeavePatch)
    (hstaff : actor.is_staff = true)
    (hst : inst.status = .approved ∨ inst.status = .rejected)
    (hv : vd.status = some .pending) :
    ∃ r, leave_perform_update actor inst vd = .ok r ∧
      r.approved_by = none ∧ r.status = .pending := by
  have hnp : inst.status ≠ .pending := by rcases hst with h | h <;> simp [h]
  cases hres : leave_perform_update actor inst vd with
  | ok r =>
    refine ⟨r, rfl, ?_⟩
    cases hc : vd.admin_comments <;>
      simp [leave_perform_update, leave_serializer_update, hstaff, hv, hnp, hc] at hres <;>
      simp [← hres]
  | forbidden m =>
    exfalso
    cases hc : vd.admin_comments <;>
      simp [leave_perform_update, leave_serializer_update, hstaff, hv, hnp, hc] at hres
  | badRequest m =>
    exfalso
    cases hc : vd.admin_comments <;>
      simp [leave_perform_update, leave_serializer_update, hstaff, hv, hnp, hc] at hres

/-- C7 (witness): the admin `alice` reverts `bob`'s approved request to
pending; the stored row has no approver. -/
theorem C7_revert_clears_approver_witness :
    ∃ r, leave_perform_update alice approvedLeave { status := some .pending } = .ok r ∧
      r.approved_by = none ∧ r.status = .pending :=
  C7_revert_clears_approver alice approvedLeave { status := some .pending }
    rfl (Or.inl rfl) rfl

/-! ## C5: ownership field on create -/

/-- C5 (counterexample): the claim says an admin may set the ownership
field to any user and the created row then carries the requested value.
But `user` is a read-only serializer field and every `perform_create`
ends in `serializer.save(user=self.request.user)`: the admin `alice`
requests a leave request for `bob` (user id 2) and the created row is
owned by `alice` (user id 1) instead. -/
theorem C5_counterexample :
    alice.is_staff = true ∧
    leave_perform_create alice (some bob.id) "sick" 10 none "covering" none
        false none none =
      .ok { user := alice.id, leave_type := "sick", start_date := 10,
            end_date := none, reason := "covering", status := .pending,
            is_hourly := false, start_time := none, end_time := none,
            admin_comments := none, approved_by := none } ∧
    alice.id ≠ bob.id := by
  refine ⟨rfl, ?_, ?_⟩ <;> decide

/-- C5 (amended): on create of a TimesheetEntry, LeaveRequest or
TaskTimeEntry the requested `user` value is ignored (the serializers
declare `user` read-only) and the created row is always owned by the
acting user, admin or not; the ownership guard in `perform_create`
never rejects anyone. -/
theorem C5_create_owner (actor : User) (bu : Option Nat) (task date : Nat)
    (hours : Int) (descr : Option String) (st : Option TsStatus)
    (lt : String) (sd : Nat) (ed : Option Nat) (reason : String)
    (ls : Option LrStatus) (ih : Bool) (t1 t2 : Option Nat)
    (stm etm : Int) (hlt : stm < etm) :
    (∃ e, timesheet_perform_create actor bu task date hours descr st = .ok e ∧
      e.user = actor.id) ∧
    (∃ r, leave_perform_create actor bu lt sd ed reason ls ih t1 t2 = .ok r ∧
      r.user = actor.id) ∧
    (∃ t, taskTime_create actor bu task stm etm descr = .ok t ∧
      t.user = actor.id) := by
  refine
    ⟨⟨{ user := actor.id, task, date, hours, description := descr,
        status := st.getD .draft }, ?_, rfl⟩,
     ⟨{ user := actor.id, leave_type := lt, start_date := sd, end_date := ed,
        reason, status := ls.getD .pending, is_hourly := ih,
        start_time := t1, end_time := t2, admin_comments := none,
        approved_by := none }, ?_, rfl⟩,
     ⟨{ user := actor.id, task, start_time := stm, end_time := etm,
        description := descr }, ?_, rfl⟩⟩
  · simp [timesheet_perform_create]
  · simp [leave_perform_create]
  · simp [taskTime_create, taskTime_validate, not_le.mpr hlt]

/-- C5 (witness): the amended theorem at the admin `alice` requesting
rows for `bob`. -/
theorem C5_create_owner_witness :
    (∃ e, timesheet_perform_create alice (some bob.id) 1 100 800 none none = .ok e ∧
      e.user = alice.id) ∧
    (∃ r, leave_perform_create alice (some bob.id) "sick" 10 none "covering"
        none false none none = .ok r ∧ r.user = alice.id) ∧
    (∃ t, taskTime_create alice (some bob.id) 1 60 120 none = .ok t ∧
      t.user = alice.id) :=
  C5_create_owner alice (some bob.id) 1 100 800 none none "sick" 10 none
    "covering" none false none none 60 120 (by decide)

/-! ## C8: TaskTimeEntry time-range validation -/

/-- C8: creating a task time entry fails with a validation error (400)
whenever `end_time ≤ start_time`, leaving nothing created, and succeeds
exactly when `end_time > start_time`, producing the entry. -/
theorem C8_taskTime_validation (actor : User) (bu : Option Nat) (task : Nat)
    (stm etm : Int) (descr : Option String) :
    (etm ≤ stm →
      taskTime_create actor bu task stm etm descr =
        .badRequest "End time must be after start time.") ∧
    (stm < etm →
      taskTime_create actor bu task stm etm descr =
        .ok { user := actor.id, task, start_time := stm, end_time := etm,
              description := descr }) := by
  constructor
  · intro h
    simp [taskTime_create, taskTime_validate, h]
  · intro h
    simp [taskTime_create, taskTime_validate, not_le.mpr h]

/-- C8 (witness): a zero-length slot is rejected; a positive one is
created. -/
theorem C8_taskTime_validation_witness :
    taskTime_create bob none 1 60 60 none =
      .badRequest "End time must be after start time." ∧
    taskTime_create bob none 1 60 120 none =
      .ok { user := bob.id, task := 1, start_time := 60, end_time := 120,
            description := none } :=
  ⟨(C8_taskTime_validation bob none 1 60 60 none).1 (by decide),
   (C8_taskTime_validation bob none 1 60 120 none).2 (by decide)⟩

/-! ## C9: unauthenticated registration of admin accounts -/

/-- C9: the user-registration `create` action is reachable without
authentication (`AllowAny`), and the registration serializer accepts a
write-only `is_staff` flag that is passed straight to
`create_user`: an unauthenticated caller can mint an account with
`is_staff = true`. -/
theorem C9_open_admin_registration :
    user_viewset_allows "create" false = true ∧
    (userRegistration_create
      { username := "eve", email := "eve@example.com", password := "pw",
        is_staff := some true } 7).is_staff = true := by
  constructor <;> decide

end Worklog
